import Mathlib

/-!
Shallow embedding of the SR830 lock-in amplifier control library
(`sr830/sr830.py` of the `srs_sr830` repository).

The wrapper talks to the instrument through a VISA resource; every public
operation sends one or more ASCII command strings (`instr.write`) or query
strings (`instr.query`, `instr.query_binary_values`).  A command is modelled
as a structured value (mnemonic plus numeric arguments); the instrument is
modelled as a store that remembers, for each command mnemonic, the last
argument list written and echoes it back to the matching query.  Fallible
Python code returns `Except PyErr`; the trace of commands actually sent is
returned alongside the result, so that commands sent before an exception is
raised are visible.
-/

/-- ASCII command mnemonics used by the operations modelled here.  `OVRMq`
and `DDEFq` stand for the literal strings `"OVRM?"` and `"DDEF? <ch>"` that
the source passes to `instr.write` (query strings sent through a bare
write). -/
inductive Mnemonic where
  | PHAS | FMOD | FREQ | HARM | SENS | OFLT | SRAT | LOCL
  | AOFF | OUTX | SEND | PAUS | TRCB | TRCL | FAST | STRT | STRD
  | OVRM | OVRMq | DDEFq | OEXP | FPOP | SSET | RSET | OUTP | OUTR
  deriving DecidableEq, Repr

/-- A command sent to the VISA resource: a bare write or a query. -/
inductive Cmd where
  | write (m : Mnemonic) (args : List ℚ)
  | query (m : Mnemonic) (args : List ℚ)
  deriving DecidableEq, Repr

/-- The ordered list of commands an operation sent to the instrument. -/
abbrev Trace := List Cmd

/-- The Python exceptions the modelled code can raise.  `unboundLocal` models
use of a local variable to which no branch assigned a value. -/
inductive PyErr where
  | valueError
  | indexError
  | attributeError
  | unboundLocal
  deriving DecidableEq, Repr

/-- The instrument modelled as a store: for each command mnemonic, the
argument list most recently written (the response echoed to a query of the
same mnemonic). -/
abbrev Store := Mnemonic → List ℚ

/-- Update the store with a write of `args` to mnemonic `m`. -/
def Store.put (s : Store) (m : Mnemonic) (args : List ℚ) : Store :=
  fun k => if k = m then args else s k

/-- Effect of one sent command on the instrument store: a write records its
arguments, a query changes nothing. -/
def applyCmd (s : Store) : Cmd → Store
  | Cmd.write m args => s.put m args
  | Cmd.query _ _ => s

/-- Effect of a whole command trace on the instrument store. -/
def applyTrace (s : Store) (t : Trace) : Store := t.foldl applyCmd s

/-- An instrument store with every register empty. -/
def store0 : Store := fun _ => []

/-- Python `int(...)` applied to a numeric response, modelled on rationals:
truncation toward zero (`Int` division in Lean rounds toward zero). -/
def pyInt (q : ℚ) : ℤ := q.num / (q.den : ℤ)

/-- `reference_phase_shift` setter (sr830.py lines 399-414):
`if (phase_shift >= -360) and (phase_shift <= 720): write(f"PHAS {..}")
else: raise ValueError`. -/
def reference_phase_shift_set (phase_shift : ℚ) : Trace × Except PyErr Unit :=
  if -360 ≤ phase_shift ∧ phase_shift ≤ 720 then
    ([Cmd.write Mnemonic.PHAS [phase_shift]], Except.ok ())
  else
    ([], Except.error PyErr.valueError)

/-- `reference_phase_shift` getter (lines 388-397):
`float(self.instr.query("PHAS?"))`. -/
def reference_phase_shift_get (ins : Store) : Trace × Except PyErr ℚ :=
  ([Cmd.query Mnemonic.PHAS []], Except.ok ((ins Mnemonic.PHAS).headD 0))

/-- `reference_source` setter (lines 430-448): guard `source in [0, 1]`. -/
def reference_source_set (source : ℤ) : Trace × Except PyErr Unit :=
  if source = 0 ∨ source = 1 then
    ([Cmd.write Mnemonic.FMOD [(source : ℚ)]], Except.ok ())
  else
    ([], Except.error PyErr.valueError)

/-- `reference_source` getter (lines 416-428): `int(query("FMOD?"))`. -/
def reference_source_get (ins : Store) : Trace × Except PyErr ℤ :=
  ([Cmd.query Mnemonic.FMOD []], Except.ok (pyInt ((ins Mnemonic.FMOD).headD 0)))

/-- `reference_frequency` setter (lines 461-476): guard
`(freq >= 0.001) and (freq <= 102000)`. -/
def reference_frequency_set (freq : ℚ) : Trace × Except PyErr Unit :=
  if 1/1000 ≤ freq ∧ freq ≤ 102000 then
    ([Cmd.write Mnemonic.FREQ [freq]], Except.ok ())
  else
    ([], Except.error PyErr.valueError)

/-- `reference_frequency` getter (lines 450-459): `float(query("FREQ?"))`. -/
def reference_frequency_get (ins : Store) : Trace × Except PyErr ℚ :=
  ([Cmd.query Mnemonic.FREQ []], Except.ok ((ins Mnemonic.FREQ).headD 0))

/-- `harmonic` setter (lines 525-539): guard
`(harmonic >= 1) and (harmonic <= 19999)`. -/
def harmonic_set (harmonic : ℤ) : Trace × Except PyErr Unit :=
  if 1 ≤ harmonic ∧ harmonic ≤ 19999 then
    ([Cmd.write Mnemonic.HARM [(harmonic : ℚ)]], Except.ok ())
  else
    ([], Except.error PyErr.valueError)

/-- `harmonic` getter (lines 514-523): `int(query("HARM?"))`. -/
def harmonic_get (ins : Store) : Trace × Except PyErr ℤ :=
  ([Cmd.query Mnemonic.HARM []], Except.ok (pyInt ((ins Mnemonic.HARM).headD 0)))

/-- `sensitivity` setter (lines 754-797): guard `sensitivity in range(27)`. -/
def sensitivity_set (sensitivity : ℤ) : Trace × Except PyErr Unit :=
  if 0 ≤ sensitivity ∧ sensitivity < 27 then
    ([Cmd.write Mnemonic.SENS [(sensitivity : ℚ)]], Except.ok ())
  else
    ([], Except.error PyErr.valueError)

/-- `sensitivity` getter (lines 715-752): `int(query("SENS?"))`. -/
def sensitivity_get (ins : Store) : Trace × Except PyErr ℤ :=
  ([Cmd.query Mnemonic.SENS []], Except.ok (pyInt ((ins Mnemonic.SENS).headD 0)))

/-- `time_constant` setter (lines 867-902): guard `tc in range(20)`. -/
def time_constant_set (tc : ℤ) : Trace × Except PyErr Unit :=
  if 0 ≤ tc ∧ tc < 20 then
    ([Cmd.write Mnemonic.OFLT [(tc : ℚ)]], Except.ok ())
  else
    ([], Except.error PyErr.valueError)

/-- `time_constant` getter (lines 835-865): `int(query("OFLT?"))`. -/
def time_constant_get (ins : Store) : Trace × Except PyErr ℤ :=
  ([Cmd.query Mnemonic.OFLT []], Except.ok (pyInt ((ins Mnemonic.OFLT).headD 0)))

/-- `sample_rate` setter (lines 1487-1517): guard `rate in range(15)`. -/
def sample_rate_set (rate : ℤ) : Trace × Except PyErr Unit :=
  if 0 ≤ rate ∧ rate < 15 then
    ([Cmd.write Mnemonic.SRAT [(rate : ℚ)]], Except.ok ())
  else
    ([], Except.error PyErr.valueError)

/-- `sample_rate` getter (lines 1460-1485): `int(query("SRAT?"))`. -/
def sample_rate_get (ins : Store) : Trace × Except PyErr ℤ :=
  ([Cmd.query Mnemonic.SRAT []], Except.ok (pyInt ((ins Mnemonic.SRAT).headD 0)))

/-- `local_mode` setter (lines 2042-2061): guard `mode in range(3)`. -/
def local_mode_set (mode : ℤ) : Trace × Except PyErr Unit :=
  if 0 ≤ mode ∧ mode < 3 then
    ([Cmd.write Mnemonic.LOCL [(mode : ℚ)]], Except.ok ())
  else
    ([], Except.error PyErr.valueError)

/-- `local_mode` getter (lines 2027-2040): `int(query("LOCL?"))`. -/
def local_mode_get (ins : Store) : Trace × Except PyErr ℤ :=
  ([Cmd.query Mnemonic.LOCL []], Except.ok (pyInt ((ins Mnemonic.LOCL).headD 0)))

/-- `auto_offset` (lines 1242-1259).  The source guard is
`parameter in range(3)`, i.e. it accepts 0, 1, 2, although the docstring and
the error message both document the domain as 1 (X), 2 (Y), 3 (R). -/
def auto_offset (parameter : ℤ) : Trace × Except PyErr Unit :=
  if 0 ≤ parameter ∧ parameter < 3 then
    ([Cmd.write Mnemonic.AOFF [(parameter : ℚ)]], Except.ok ())
  else
    ([], Except.error PyErr.valueError)

/-- The argument domain documented for `auto_offset` (and
`get_output_offset_expand`) in its docstring: 1 (X), 2 (Y), 3 (R). -/
def auto_offset_documented_domain (parameter : ℤ) : Prop :=
  parameter = 1 ∨ parameter = 2 ∨ parameter = 3

/-- `get_display` (lines 1065-1112).  The source guard is
`channel in [0, 1]`, although the docstring documents the domain as
1 (CH1), 2 (CH2).  On the accepted branch the body calls
`self.instr.write(f"DDEF? {channel}")` (a bare write) and then invokes
`.split(",")` on the integer byte count that pyvisa `write` returns, which
raises `AttributeError` in Python before any value can be produced. -/
def get_display (channel : ℤ) : Trace × Except PyErr (ℤ × ℤ) :=
  if channel = 0 ∨ channel = 1 then
    ([Cmd.write Mnemonic.DDEFq [(channel : ℚ)]], Except.error PyErr.attributeError)
  else
    ([], Except.error PyErr.valueError)

/-- The channel domain documented for `get_display` (and `read_display`,
`set_front_output`) in its docstring: 1 (CH1), 2 (CH2). -/
def get_display_documented_domain (channel : ℤ) : Prop :=
  channel = 1 ∨ channel = 2

/-- `set_output_offset_expand` (lines 1173-1209): guard
`(parameter in [1, 2, 3]) and (offset >= -105) and (offset <= 105) and
(expand in range(3))`; writes `OEXP <p>, <offset>, <expand>`. -/
def set_output_offset_expand (parameter : ℤ) (offset : ℚ) (expand : ℤ) :
    Trace × Except PyErr Unit :=
  if (parameter = 1 ∨ parameter = 2 ∨ parameter = 3)
      ∧ -105 ≤ offset ∧ offset ≤ 105 ∧ 0 ≤ expand ∧ expand < 3 then
    ([Cmd.write Mnemonic.OEXP [(parameter : ℚ), offset, (expand : ℚ)]],
      Except.ok ())
  else
    ([], Except.error PyErr.valueError)

/-- `get_output_offset_expand` (lines 1211-1240): guard
`parameter in range(3)` (docstring documents 1, 2, 3); queries
`OEXP? <p>` and splits the response into `float(offset), int(expand)`. -/
def get_output_offset_expand (ins : Store) (parameter : ℤ) :
    Trace × Except PyErr (ℚ × ℤ) :=
  if 0 ≤ parameter ∧ parameter < 3 then
    ([Cmd.query Mnemonic.OEXP [(parameter : ℚ)]],
      Except.ok ((ins Mnemonic.OEXP).headD 0, pyInt ((ins Mnemonic.OEXP).getD 1 0)))
  else
    ([], Except.error PyErr.valueError)

/-- `save_setup` (lines 1394-1408): guard `number in range(1, 10)`. -/
def save_setup (number : ℤ) : Trace × Except PyErr Unit :=
  if 1 ≤ number ∧ number < 10 then
    ([Cmd.write Mnemonic.SSET [(number : ℚ)]], Except.ok ())
  else
    ([], Except.error PyErr.valueError)

/-- `recall_setup` (lines 1410-1424): guard `number in range(1, 10)`. -/
def recall_setup (number : ℤ) : Trace × Except PyErr Unit :=
  if 1 ≤ number ∧ number < 10 then
    ([Cmd.write Mnemonic.RSET [(number : ℚ)]], Except.ok ())
  else
    ([], Except.error PyErr.valueError)

/-- `set_front_output` (lines 1114-1142): guard
`(channel in [0, 1]) and (output in [0, 1])` (docstring documents channels
1, 2); writes `FPOP <ch>, <out>`. -/
def set_front_output (channel output : ℤ) : Trace × Except PyErr Unit :=
  if (channel = 0 ∨ channel = 1) ∧ (output = 0 ∨ output = 1) then
    ([Cmd.write Mnemonic.FPOP [(channel : ℚ), (output : ℚ)]], Except.ok ())
  else
    ([], Except.error PyErr.valueError)

/-- `read_display` (lines 1650-1669): guard `channel in [0, 1]` (docstring
documents channels 1, 2); `float(query(f"OUTR? <ch>"))`. -/
def read_display (ins : Store) (channel : ℤ) : Trace × Except PyErr ℚ :=
  if channel = 0 ∨ channel = 1 then
    ([Cmd.query Mnemonic.OUTR [(channel : ℚ)]],
      Except.ok ((ins Mnemonic.OUTR).headD 0))
  else
    ([], Except.error PyErr.valueError)

/-- `measure` (lines 1624-1648): guard `parameter in range(1, 5)`;
`float(query(f"OUTP? <p>"))`. -/
def sr830_measure (ins : Store) (parameter : ℤ) : Trace × Except PyErr ℚ :=
  if 1 ≤ parameter ∧ parameter < 5 then
    ([Cmd.query Mnemonic.OUTP [(parameter : ℚ)]],
      Except.ok ((ins Mnemonic.OUTP).headD 0))
  else
    ([], Except.error PyErr.valueError)

/-- `pause` (lines 1608-1613): writes `PAUS`. -/
def pause : Trace × Except PyErr Unit :=
  ([Cmd.write Mnemonic.PAUS []], Except.ok ())

/-- `gpib_override_remote` setter (lines 2080-2101): guard
`condition in [0, 1]`. -/
def gpib_override_remote_set (condition : ℤ) : Trace × Except PyErr Unit :=
  if condition = 0 ∨ condition = 1 then
    ([Cmd.write Mnemonic.OVRM [(condition : ℚ)]], Except.ok ())
  else
    ([], Except.error PyErr.valueError)

/-- `gpib_override_remote` getter (lines 2063-2078):
`return int(self.instr.write("OVRM?"))` - a bare `write` of the query
string, never a `query`.  pyvisa `write` returns the number of bytes
written, modelled by `wret`; the instrument's OVRM register is never read,
so the result does not depend on the store at all. -/
def gpib_override_remote_get (wret : ℤ) : Trace × Except PyErr ℤ :=
  ([Cmd.write Mnemonic.OVRMq []], Except.ok wret)

/-- `start` (lines 1593-1606): queries the data transfer mode (`FAST?`),
then writes `STRT` if the mode is 0 and `STRD` otherwise - two commands. -/
def start (ins : Store) : Trace × Except PyErr Unit :=
  if pyInt ((ins Mnemonic.FAST).headD 0) = 0 then
    ([Cmd.query Mnemonic.FAST [], Cmd.write Mnemonic.STRT []], Except.ok ())
  else
    ([Cmd.query Mnemonic.FAST [], Cmd.write Mnemonic.STRD []], Except.ok ())

/-- The `output_interfaces` class tuple (line 117). -/
def output_interfaces : List String := [("RS232"), ("GPIB")]

/-- The `end_of_buffer_modes` class tuple (line 141). -/
def end_of_buffer_modes : List String := [("1 Shot"), ("Loop")]

/-- Python sequence indexing `xs[i]`: negative indices count from the end,
anything else out of range raises IndexError. -/
def pyGet (xs : List String) (i : ℤ) : Except PyErr String :=
  if 0 ≤ i ∧ i < xs.length then
    Except.ok (xs.getD i.toNat (""))
  else if i < 0 ∧ 0 ≤ i + xs.length then
    Except.ok (xs.getD (i + xs.length).toNat (""))
  else
    Except.error PyErr.indexError

/-- The `expect_termination` assignment in the buffer-read routines (lines
1846-1854 and 1916-1923): `False` for RS232 (after a warning), `True` for
GPIB, and no assignment at all on any other interface string (`Option.none`
models the unassigned local variable). -/
def expect_termination_of (s : String) : Option Bool :=
  if s = ("RS232") then Option.some false
  else if s = ("GPIB") then Option.some true
  else Option.none

/-- The integer the `output_interface` property getter (line 990) parses
from the `OUTX?` query response. -/
def outxResp (ins : Store) : ℤ := pyInt ((ins Mnemonic.OUTX).headD 0)

/-- The integer the `end_of_buffer_mode` property getter (line 1531) parses
from the `SEND?` query response. -/
def sendResp (ins : Store) : ℤ := pyInt ((ins Mnemonic.SEND).headD 0)

/-- `get_binary_buffer_data` (lines 1812-1879).  After validation it reads
`self.output_interface` (an `OUTX?` query) and indexes `output_interfaces`
with the result to choose `expect_termination`; reads
`self.end_of_buffer_mode` (a `SEND?` query) and indexes
`end_of_buffer_modes`; writes `PAUS` if the mode is Loop; sends the
`TRCB?` binary query (`raw` models the IEEE-754 float response of
`query_binary_values`, `data_points=bins`); and restores Loop mode by
writing `SEND 1`.  Evaluating the unassigned `expect_termination` raises
before the `TRCB?` query is sent. -/
def get_binary_buffer_data (ins : Store) (raw : List ℚ)
    (channel start_bin bins : ℤ) : Trace × Except PyErr (List ℚ) :=
  if (channel = 1 ∨ channel = 2) ∧ 0 ≤ start_bin ∧ start_bin ≤ 16382
      ∧ 1 ≤ bins ∧ bins ≤ 16383 then
    match pyGet output_interfaces (outxResp ins) with
    | Except.error e => ([Cmd.query Mnemonic.OUTX []], Except.error e)
    | Except.ok oi =>
      match pyGet end_of_buffer_modes (sendResp ins) with
      | Except.error e =>
          ([Cmd.query Mnemonic.OUTX [], Cmd.query Mnemonic.SEND []],
            Except.error e)
      | Except.ok buffer_mode =>
        let t1 := [Cmd.query Mnemonic.OUTX [], Cmd.query Mnemonic.SEND []]
          ++ (if buffer_mode = ("Loop") then [Cmd.write Mnemonic.PAUS []] else [])
        match expect_termination_of oi with
        | Option.none => (t1, Except.error PyErr.unboundLocal)
        | Option.some _ =>
          (t1 ++ [Cmd.query Mnemonic.TRCB [(channel : ℚ), (start_bin : ℚ), (bins : ℚ)]]
              ++ (if buffer_mode = ("Loop") then [Cmd.write Mnemonic.SEND [1]] else []),
            Except.ok raw)
  else
    ([], Except.error PyErr.valueError)

/-- `buffer[::2]`: every second element starting from the first. -/
def sliceStep2 : List ℤ → List ℤ
  | [] => []
  | [a] => [a]
  | a :: _ :: rest => a :: sliceStep2 rest

/-- The mantissa/exponent decode of `get_non_norm_buffer_data` (lines
1942-1946): `mantissa_buffer = buffer[::2]`, `exp_buffer = buffer[1::2]`,
`[m * 2 ** (e - 124) for m, e in zip(mantissa_buffer, exp_buffer)]`. -/
def nonNormDecode (buffer : List ℤ) : List ℚ :=
  let mantissa_buffer := sliceStep2 buffer
  let exp_buffer := sliceStep2 (buffer.drop 1)
  (mantissa_buffer.zip exp_buffer).map
    (fun p => (p.1 : ℚ) * (2 : ℚ) ^ (p.2 - 124))

/-- `get_non_norm_buffer_data` (lines 1881-1958): same control flow as
`get_binary_buffer_data` but the binary query is `TRCL?` with datatype `h`
(16-bit little-endian signed integers) and `data_points=2*bins`; `raw`
models that response, which the SR830 mantissa/exponent formula decodes. -/
def get_non_norm_buffer_data (ins : Store) (raw : List ℤ)
    (channel start_bin bins : ℤ) : Trace × Except PyErr (List ℚ) :=
  if (channel = 1 ∨ channel = 2) ∧ 0 ≤ start_bin ∧ start_bin ≤ 16382
      ∧ 1 ≤ bins ∧ bins ≤ 16383 then
    match pyGet output_interfaces (outxResp ins) with
    | Except.error e => ([Cmd.query Mnemonic.OUTX []], Except.error e)
    | Except.ok oi =>
      match pyGet end_of_buffer_modes (sendResp ins) with
      | Except.error e =>
          ([Cmd.query Mnemonic.OUTX [], Cmd.query Mnemonic.SEND []],
            Except.error e)
      | Except.ok buffer_mode =>
        let t1 := [Cmd.query Mnemonic.OUTX [], Cmd.query Mnemonic.SEND []]
          ++ (if buffer_mode = ("Loop") then [Cmd.write Mnemonic.PAUS []] else [])
        match expect_termination_of oi with
        | Option.none => (t1, Except.error PyErr.unboundLocal)
        | Option.some _ =>
          (t1 ++ [Cmd.query Mnemonic.TRCL [(channel : ℚ), (start_bin : ℚ), (bins : ℚ)]]
              ++ (if buffer_mode = ("Loop") then [Cmd.write Mnemonic.SEND [1]] else []),
            Except.ok (nonNormDecode raw))
  else
    ([], Except.error PyErr.valueError)

/-- Binary digits of `n`, least significant first (empty for 0).  The
first argument is structural fuel (`n` itself suffices, since halving at
least once per step needs at most `n` steps). -/
def natBinDigitsGo : ℕ → ℕ → List Bool
  | _, 0 => []
  | 0, _ + 1 => []
  | fuel + 1, n + 1 => ((n + 1) % 2 == 1) :: natBinDigitsGo fuel ((n + 1) / 2)

/-- Python `format(n, "b")` (lines 348, 358, 366, 375): the binary digit
string of `n`, most significant first, with no zero padding and the single
digit 0 for `n = 0`.  `true` stands for the character 1. -/
def formatB (n : ℕ) : List Bool :=
  if n = 0 then [false] else (natBinDigitsGo n n).reverse

/-- Description column (`[i][1]`) of `_serial_poll_status_byte`
(lines 179-188). -/
def serial_poll_status_byte_desc : List String :=
  [("No scan in progress"), ("No command execution in progress"),
   ("An enabled bit in error status byte has been set"),
   ("An enabled bit in LIA status byte has been set"),
   ("Interface output buffer is non-empty"),
   ("An enabled bit in standard status byte has been set"),
   ("A service request has occured"), ("")]

/-- Description column of `_error_status_byte` (lines 242-251). -/
def error_status_byte_desc : List String :=
  [(""), ("Battery backup has failed"), ("RAM memory test found error"),
   (""), ("ROM memory test found error"),
   ("GPIB fast data transfer mode aborted"), ("DSP test found error"),
   ("Internal math error")]

/-- Description column of `_lia_status_byte` (lines 221-230). -/
def lia_status_byte_desc : List String :=
  [("Input or amplifier overload"), ("Time constant filter overload"),
   ("Output overload"), ("Reference unlock detected"),
   ("Detection frequency switched range"),
   ("Time constant changed indirectly"), ("Data storage triggered"), ("")]

/-- Description column of `_standard_event_status_byte` (lines 200-209). -/
def standard_event_status_byte_desc : List String :=
  [("Input queue overflow"), (""), ("Output queue overflow"), (""),
   ("Command cannot execute/parameter out of range"),
   ("Received illegal command"), ("Key pressed/knob rotated"), ("Power-on")]

/-- The `for i, bit in enumerate(...)` loops in `errors` (lines 359-361 and
367-369): collect `table[i][1]` for every 1 character of the formatted
byte; indexing the table out of range raises IndexError. -/
def collectBitErrors (table : List String) : List Bool → ℕ → Except PyErr (List String)
  | [], _ => Except.ok []
  | b :: rest, i =>
    if b then
      match table.get? i with
      | Option.some d => (collectBitErrors table rest (i + 1)).map (fun l => d :: l)
      | Option.none => Except.error PyErr.indexError
    else collectBitErrors table rest (i + 1)

/-- The `for i in sesb_error_bits` loop in `errors` (lines 376-379):
`sesb[i]` raises IndexError when the formatted byte is shorter than `i`. -/
def sesbLoop (bits : List Bool) : List ℕ → Except PyErr (List String)
  | [] => Except.ok []
  | i :: rest =>
    match bits.get? i with
    | Option.none => Except.error PyErr.indexError
    | Option.some b =>
      if b then
        (sesbLoop bits rest).map
          (fun l => standard_event_status_byte_desc.getD i ("") :: l)
      else sesbLoop bits rest

/-- The `errors` property (lines 338-385).  `sp`, `esb`, `lsb`, `sesb` are
the responses of the serial-poll, error, LIA and standard-event status-byte
queries.  Each byte is rendered with `format(x, "b")` - most significant
bit first, no zero padding - and the resulting string is indexed at the
fixed positions 4, 2, 3 and 5; an index beyond the string length raises
IndexError, exactly as in Python. -/
def errorsImpl (sp esb lsb sesb : ℕ) : Except PyErr (List String) :=
  let spb := formatB sp
  match spb.get? 4 with
  | Option.none => Except.error PyErr.indexError
  | Option.some b4 =>
    let errors1 := if b4 then [serial_poll_status_byte_desc.getD 4 ("")] else []
    match spb.get? 2 with
    | Option.none => Except.error PyErr.indexError
    | Option.some b2 =>
      match (if b2 then collectBitErrors error_status_byte_desc (formatB esb) 0
             else Except.ok []) with
      | Except.error e => Except.error e
      | Except.ok errors2 =>
        match spb.get? 3 with
        | Option.none => Except.error PyErr.indexError
        | Option.some b3 =>
          match (if b3 then
                   collectBitErrors lia_status_byte_desc ((formatB lsb).take 4) 0
                 else Except.ok []) with
          | Except.error e => Except.error e
          | Except.ok errors3 =>
            match spb.get? 5 with
            | Option.none => Except.error PyErr.indexError
            | Option.some b5 =>
              match (if b5 then sesbLoop (formatB sesb) [0, 2, 4, 5]
                     else Except.ok []) with
              | Except.error e => Except.error e
              | Except.ok errors4 =>
                Except.ok (errors1 ++ errors2 ++ errors3 ++ errors4)

/-- The behaviour C6 claims for the `errors` property, written from the
claim: one description per set error condition, by bit number - bit 4
(MAV) of the serial-poll byte, each set bit of the error status byte, bits
0-3 of the LIA status byte, and bits 0, 2, 4 and 5 of the standard event
status byte - and the empty list when no error bit is set. -/
def errorsSpec (sp esb lsb sesb : ℕ) : List String :=
  (if sp.testBit 4 then [serial_poll_status_byte_desc.getD 4 ("")] else [])
    ++ ((List.range 8).filterMap fun i =>
        if esb.testBit i then Option.some (error_status_byte_desc.getD i (""))
        else Option.none)
    ++ ((List.range 4).filterMap fun i =>
        if lsb.testBit i then Option.some (lia_status_byte_desc.getD i (""))
        else Option.none)
    ++ ([0, 2, 4, 5].filterMap fun i =>
        if sesb.testBit i then
          Option.some (standard_event_status_byte_desc.getD i (""))
        else Option.none)

/-- The Python-side attributes `__init__` creates (lines 253-276):
`_resource_name`, `_resource_manager`, `_resource_kwargs` and `instr`.
The manager and resource handles are opaque; integer tokens stand for
them. -/
structure WrapperState where
  resource_name : String
  resource_manager : Option ℕ
  resource_kwargs : List (String × String)
  instr : Option ℕ
  deriving DecidableEq

/-- A Python value returned by a public operation. -/
inductive PyVal where
  | unit
  | int (z : ℤ)
  | rat (q : ℚ)
  | pairIZ (a b : ℤ)
  | pairQZ (a : ℚ) (b : ℤ)
  | rats (l : List ℚ)
  deriving DecidableEq

/-- Lift an operation result into the uniform return type. -/
def mapRes {α : Type} (f : α → PyVal) :
    Trace × Except PyErr α → Trace × Except PyErr PyVal
  | (t, Except.ok a) => (t, Except.ok (f a))
  | (t, Except.error e) => (t, Except.error e)

/-- The modelled public operations other than `__init__`, `connect` and
`disconnect` (which the claim exempts), with their arguments. -/
inductive PubOp where
  | referencePhaseShiftSet (p : ℚ)
  | referencePhaseShiftGet
  | referenceSourceSet (v : ℤ)
  | referenceSourceGet
  | referenceFrequencySet (f : ℚ)
  | referenceFrequencyGet
  | harmonicSet (v : ℤ)
  | harmonicGet
  | sensitivitySet (v : ℤ)
  | sensitivityGet
  | timeConstantSet (v : ℤ)
  | timeConstantGet
  | sampleRateSet (v : ℤ)
  | sampleRateGet
  | localModeSet (v : ℤ)
  | localModeGet
  | autoOffsetOp (p : ℤ)
  | getDisplayOp (ch : ℤ)
  | setOutputOffsetExpandOp (p : ℤ) (off : ℚ) (ex : ℤ)
  | getOutputOffsetExpandOp (p : ℤ)
  | saveSetupOp (n : ℤ)
  | recallSetupOp (n : ℤ)
  | setFrontOutputOp (ch out : ℤ)
  | readDisplayOp (ch : ℤ)
  | measureOp (p : ℤ)
  | startOp
  | pauseOp
  | getBinaryBufferDataOp (raw : List ℚ) (ch sb bins : ℤ)
  | getNonNormBufferDataOp (raw : List ℤ) (ch sb bins : ℤ)
  | gpibOverrideRemoteGetOp (wret : ℤ)
  | gpibOverrideRemoteSetOp (c : ℤ)

/-- Run a public operation against the wrapper state `w` and instrument
store `ins`.  Each case is the modelled method; none of the source methods
assigns any attribute of `self`, so each returns `w` as it was. -/
def runPub (w : WrapperState) (ins : Store) :
    PubOp → WrapperState × (Trace × Except PyErr PyVal)
  | PubOp.referencePhaseShiftSet p =>
      (w, mapRes (fun _ => PyVal.unit) (reference_phase_shift_set p))
  | PubOp.referencePhaseShiftGet =>
      (w, mapRes PyVal.rat (reference_phase_shift_get ins))
  | PubOp.referenceSourceSet v =>
      (w, mapRes (fun _ => PyVal.unit) (reference_source_set v))
  | PubOp.referenceSourceGet =>
      (w, mapRes PyVal.int (reference_source_get ins))
  | PubOp.referenceFrequencySet f =>
      (w, mapRes (fun _ => PyVal.unit) (reference_frequency_set f))
  | PubOp.referenceFrequencyGet =>
      (w, mapRes PyVal.rat (reference_frequency_get ins))
  | PubOp.harmonicSet v =>
      (w, mapRes (fun _ => PyVal.unit) (harmonic_set v))
  | PubOp.harmonicGet => (w, mapRes PyVal.int (harmonic_get ins))
  | PubOp.sensitivitySet v =>
      (w, mapRes (fun _ => PyVal.unit) (sensitivity_set v))
  | PubOp.sensitivityGet => (w, mapRes PyVal.int (sensitivity_get ins))
  | PubOp.timeConstantSet v =>
      (w, mapRes (fun _ => PyVal.unit) (time_constant_set v))
  | PubOp.timeConstantGet => (w, mapRes PyVal.int (time_constant_get ins))
  | PubOp.sampleRateSet v =>
      (w, mapRes (fun _ => PyVal.unit) (sample_rate_set v))
  | PubOp.sampleRateGet => (w, mapRes PyVal.int (sample_rate_get ins))
  | PubOp.localModeSet v =>
      (w, mapRes (fun _ => PyVal.unit) (local_mode_set v))
  | PubOp.localModeGet => (w, mapRes PyVal.int (local_mode_get ins))
  | PubOp.autoOffsetOp p =>
      (w, mapRes (fun _ => PyVal.unit) (auto_offset p))
  | PubOp.getDisplayOp ch =>
      (w, mapRes (fun r => PyVal.pairIZ r.1 r.2) (get_display ch))
  | PubOp.setOutputOffsetExpandOp p off ex =>
      (w, mapRes (fun _ => PyVal.unit) (set_output_offset_expand p off ex))
  | PubOp.getOutputOffsetExpandOp p =>
      (w, mapRes (fun r => PyVal.pairQZ r.1 r.2) (get_output_offset_expand ins p))
  | PubOp.saveSetupOp n => (w, mapRes (fun _ => PyVal.unit) (save_setup n))
  | PubOp.recallSetupOp n =>
      (w, mapRes (fun _ => PyVal.unit) (recall_setup n))
  | PubOp.setFrontOutputOp ch out =>
      (w, mapRes (fun _ => PyVal.unit) (set_front_output ch out))
  | PubOp.readDisplayOp ch =>
      (w, mapRes PyVal.rat (read_display ins ch))
  | PubOp.measureOp p => (w, mapRes PyVal.rat (sr830_measure ins p))
  | PubOp.startOp => (w, mapRes (fun _ => PyVal.unit) (start ins))
  | PubOp.pauseOp => (w, mapRes (fun _ => PyVal.unit) pause)
  | PubOp.getBinaryBufferDataOp raw ch sb bins =>
      (w, mapRes PyVal.rats (get_binary_buffer_data ins raw ch sb bins))
  | PubOp.getNonNormBufferDataOp raw ch sb bins =>
      (w, mapRes PyVal.rats (get_non_norm_buffer_data ins raw ch sb bins))
  | PubOp.gpibOverrideRemoteGetOp wret =>
      (w, mapRes PyVal.int (gpib_override_remote_get wret))
  | PubOp.gpibOverrideRemoteSetOp c =>
      (w, mapRes (fun _ => PyVal.unit) (gpib_override_remote_set c))

/-- C1: the claim states that a ValueError is raised iff the argument falls
outside the operation's documented domain.  The code violates this:
`auto_offset` documents the domain {1, 2, 3} but its guard is `range(3)`, so
it rejects the documented value 3 and accepts the undocumented value 0; and
`get_display` documents channels {1, 2} but its guard is `[0, 1]`, so it
rejects the documented channel 2. -/
theorem C1_documented_domain_bug :
    auto_offset_documented_domain 3
      ∧ (auto_offset 3).2 = Except.error PyErr.valueError
      ∧ ¬ auto_offset_documented_domain 0
      ∧ (auto_offset 0).2 = Except.ok ()
      ∧ get_display_documented_domain 2
      ∧ (get_display 2).2 = Except.error PyErr.valueError := by
  refine ⟨Or.inr (Or.inr rfl), rfl, ?_, rfl, Or.inr rfl, rfl⟩
  intro h
  rcases h with h | h | h <;> exact absurd h (by decide)

/-- The last value written wins: reading the mnemonic just written. -/
theorem Store.put_self (s : Store) (m : Mnemonic) (args : List ℚ) :
    (s.put m args) m = args := by
  simp [Store.put]

/-- Python `int()` of an echoed integer is that integer. -/
theorem pyInt_intCast (v : ℤ) : pyInt (v : ℚ) = v := by
  simp [pyInt]

/-- A single-write trace updates the store with that write. -/
theorem applyTrace_single_write (s : Store) (m : Mnemonic) (args : List ℚ) :
    applyTrace s [Cmd.write m args] = s.put m args := rfl

/-- C2: for each parameter with a setter/getter pair - reference phase
shift, reference source, reference frequency, harmonic, sensitivity, time
constant, sample rate, local mode - and every value in its valid domain,
setting the parameter and then getting it returns the value set, with the
instrument modelled as a store echoing the last value written per command. -/
theorem C2_set_get_roundtrip :
    (∀ (ins : Store) (p : ℚ), -360 ≤ p → p ≤ 720 →
      (reference_phase_shift_get
        (applyTrace ins (reference_phase_shift_set p).1)).2 = Except.ok p)
    ∧ (∀ (ins : Store) (v : ℤ), v = 0 ∨ v = 1 →
      (reference_source_get
        (applyTrace ins (reference_source_set v).1)).2 = Except.ok v)
    ∧ (∀ (ins : Store) (f : ℚ), 1/1000 ≤ f → f ≤ 102000 →
      (reference_frequency_get
        (applyTrace ins (reference_frequency_set f).1)).2 = Except.ok f)
    ∧ (∀ (ins : Store) (v : ℤ), 1 ≤ v → v ≤ 19999 →
      (harmonic_get (applyTrace ins (harmonic_set v).1)).2 = Except.ok v)
    ∧ (∀ (ins : Store) (v : ℤ), 0 ≤ v → v < 27 →
      (sensitivity_get (applyTrace ins (sensitivity_set v).1)).2 = Except.ok v)
    ∧ (∀ (ins : Store) (v : ℤ), 0 ≤ v → v < 20 →
      (time_constant_get (applyTrace ins (time_constant_set v).1)).2 = Except.ok v)
    ∧ (∀ (ins : Store) (v : ℤ), 0 ≤ v → v < 15 →
      (sample_rate_get (applyTrace ins (sample_rate_set v).1)).2 = Except.ok v)
    ∧ (∀ (ins : Store) (v : ℤ), 0 ≤ v → v < 3 →
      (local_mode_get (applyTrace ins (local_mode_set v).1)).2 = Except.ok v) := by
  refine ⟨?_, ?_, ?_, ?_, ?_, ?_, ?_, ?_⟩
  · intro ins p h1 h2
    simp only [reference_phase_shift_set, if_pos (And.intro h1 h2)]
    simp [reference_phase_shift_get, applyTrace, applyCmd, Store.put]
  · intro ins v h
    simp only [reference_source_set, if_pos h]
    simp [reference_source_get, applyTrace, applyCmd, Store.put, pyInt_intCast]
  · intro ins f h1 h2
    simp only [reference_frequency_set, if_pos (And.intro h1 h2)]
    simp [reference_frequency_get, applyTrace, applyCmd, Store.put]
  · intro ins v h1 h2
    simp only [harmonic_set, if_pos (And.intro h1 h2)]
    simp [harmonic_get, applyTrace, applyCmd, Store.put, pyInt_intCast]
  · intro ins v h1 h2
    simp only [sensitivity_set, if_pos (And.intro h1 h2)]
    simp [sensitivity_get, applyTrace, applyCmd, Store.put, pyInt_intCast]
  · intro ins v h1 h2
    simp only [time_constant_set, if_pos (And.intro h1 h2)]
    simp [time_constant_get, applyTrace, applyCmd, Store.put, pyInt_intCast]
  · intro ins v h1 h2
    simp only [sample_rate_set, if_pos (And.intro h1 h2)]
    simp [sample_rate_get, applyTrace, applyCmd, Store.put, pyInt_intCast]
  · intro ins v h1 h2
    simp only [local_mode_set, if_pos (And.intro h1 h2)]
    simp [local_mode_get, applyTrace, applyCmd, Store.put, pyInt_intCast]

/-- C2 witness: the round trip evaluated at concrete in-domain values. -/
theorem C2_set_get_roundtrip_witness :
    (reference_phase_shift_get
      (applyTrace store0 (reference_phase_shift_set 10).1)).2 = Except.ok 10
    ∧ (reference_frequency_get
      (applyTrace store0 (reference_frequency_set 100).1)).2 = Except.ok 100
    ∧ (sensitivity_get (applyTrace store0 (sensitivity_set 5).1)).2 = Except.ok 5
    ∧ (time_constant_get
      (applyTrace store0 (time_constant_set 7).1)).2 = Except.ok 7 := by
  refine ⟨C2_set_get_roundtrip.1 store0 10 (by decide) (by decide),
    C2_set_get_roundtrip.2.2.1 store0 100 (by norm_num) (by decide),
    C2_set_get_roundtrip.2.2.2.2.1 store0 5 (by decide) (by decide),
    C2_set_get_roundtrip.2.2.2.2.2.1 store0 7 (by decide) (by decide)⟩

/-- Taking every second element of a cons: keep the head, recurse after
dropping the next element. -/
theorem sliceStep2_cons (x : ℤ) (l : List ℤ) :
    sliceStep2 (x :: l) = x :: sliceStep2 (l.drop 1) := by
  cases l <;> rfl

/-- The decode consumes raw values two at a time. -/
theorem nonNormDecode_cons2 (a b : ℤ) (t : List ℤ) :
    nonNormDecode (a :: b :: t)
      = ((a : ℚ) * (2 : ℚ) ^ (b - 124)) :: nonNormDecode t := by
  simp [nonNormDecode, sliceStep2_cons]

/-- The decode halves the length of the raw response. -/
theorem nonNormDecode_length : ∀ l : List ℤ,
    (nonNormDecode l).length = l.length / 2
  | [] => by simp [nonNormDecode, sliceStep2]
  | [_] => by simp [nonNormDecode, sliceStep2]
  | a :: b :: t => by
      rw [nonNormDecode_cons2]
      simp only [List.length_cons, nonNormDecode_length t]
      omega

/-- The i-th decoded value is mantissa `raw[2i]` times two to the power
`raw[2i+1] - 124`. -/
theorem nonNormDecode_getD : ∀ (l : List ℤ) (i : ℕ), 2 * i + 1 < l.length →
    (nonNormDecode l).getD i 0
      = ((l.getD (2 * i) 0 : ℤ) : ℚ) * (2 : ℚ) ^ ((l.getD (2 * i + 1) 0) - 124)
  | [], i, h => by simp at h
  | [_], i, h => by simp at h
  | a :: b :: t, 0, _ => by
      rw [nonNormDecode_cons2]
      rfl
  | a :: b :: t, i + 1, h => by
      rw [nonNormDecode_cons2]
      have h2 : 2 * i + 1 < t.length := by
        simp only [List.length_cons] at h
        omega
      have e1 : 2 * (i + 1) = 2 * i + 1 + 1 := by ring
      rw [e1]
      simp only [List.getD_cons_succ]
      exact nonNormDecode_getD t i h2

/-- Indexing the interface tuple at 0 selects RS232. -/
theorem pyGet_interfaces_0 : pyGet output_interfaces 0 = Except.ok ("RS232") := rfl

/-- Indexing the interface tuple at 1 selects GPIB. -/
theorem pyGet_interfaces_1 : pyGet output_interfaces 1 = Except.ok ("GPIB") := rfl

/-- Indexing the buffer-mode tuple at 0 selects 1 Shot. -/
theorem pyGet_modes_0 : pyGet end_of_buffer_modes 0 = Except.ok ("1 Shot") := rfl

/-- Indexing the buffer-mode tuple at 1 selects Loop. -/
theorem pyGet_modes_1 : pyGet end_of_buffer_modes 1 = Except.ok ("Loop") := rfl

/-- `pyGet` raises only IndexError: its result is a success or IndexError. -/
theorem pyGet_ok_or_index (xs : List String) (i : ℤ) :
    (∃ s, pyGet xs i = Except.ok s) ∨ pyGet xs i = Except.error PyErr.indexError := by
  unfold pyGet
  split_ifs <;> simp

/-- Full evaluation of `get_binary_buffer_data` when the arguments are valid
and the interface and buffer-mode queries answer inside their tuples. -/
theorem get_binary_eval (ins : Store) (raw : List ℚ) (channel start_bin bins : ℤ)
    (hargs : (channel = 1 ∨ channel = 2) ∧ 0 ≤ start_bin ∧ start_bin ≤ 16382
      ∧ 1 ≤ bins ∧ bins ≤ 16383)
    (hoi : outxResp ins = 0 ∨ outxResp ins = 1)
    (hm : sendResp ins = 0 ∨ sendResp ins = 1) :
    get_binary_buffer_data ins raw channel start_bin bins
      = ((if sendResp ins = 1 then
            [Cmd.query Mnemonic.OUTX [], Cmd.query Mnemonic.SEND [],
             Cmd.write Mnemonic.PAUS [],
             Cmd.query Mnemonic.TRCB [(channel : ℚ), (start_bin : ℚ), (bins : ℚ)],
             Cmd.write Mnemonic.SEND [1]]
          else
            [Cmd.query Mnemonic.OUTX [], Cmd.query Mnemonic.SEND [],
             Cmd.query Mnemonic.TRCB [(channel : ℚ), (start_bin : ℚ), (bins : ℚ)]]),
          Except.ok raw) := by
  unfold get_binary_buffer_data
  rw [if_pos hargs]
  rcases hoi with h0 | h1 <;> rcases hm with m0 | m1
  · rw [h0, m0, pyGet_interfaces_0, pyGet_modes_0]
    simp [expect_termination_of, m0]
  · rw [h0, m1, pyGet_interfaces_0, pyGet_modes_1]
    simp [expect_termination_of, m1]
  · rw [h1, m0, pyGet_interfaces_1, pyGet_modes_0]
    simp [expect_termination_of, m0]
  · rw [h1, m1, pyGet_interfaces_1, pyGet_modes_1]
    simp [expect_termination_of, m1]

/-- Full evaluation of `get_non_norm_buffer_data` when the arguments are
valid and the interface and buffer-mode queries answer inside their
tuples. -/
theorem get_non_norm_eval (ins : Store) (raw : List ℤ) (channel start_bin bins : ℤ)
    (hargs : (channel = 1 ∨ channel = 2) ∧ 0 ≤ start_bin ∧ start_bin ≤ 16382
      ∧ 1 ≤ bins ∧ bins ≤ 16383)
    (hoi : outxResp ins = 0 ∨ outxResp ins = 1)
    (hm : sendResp ins = 0 ∨ sendResp ins = 1) :
    get_non_norm_buffer_data ins raw channel start_bin bins
      = ((if sendResp ins = 1 then
            [Cmd.query Mnemonic.OUTX [], Cmd.query Mnemonic.SEND [],
             Cmd.write Mnemonic.PAUS [],
             Cmd.query Mnemonic.TRCL [(channel : ℚ), (start_bin : ℚ), (bins : ℚ)],
             Cmd.write Mnemonic.SEND [1]]
          else
            [Cmd.query Mnemonic.OUTX [], Cmd.query Mnemonic.SEND [],
             Cmd.query Mnemonic.TRCL [(channel : ℚ), (start_bin : ℚ), (bins : ℚ)]]),
          Except.ok (nonNormDecode raw)) := by
  unfold get_non_norm_buffer_data
  rw [if_pos hargs]
  rcases hoi with h0 | h1 <;> rcases hm with m0 | m1
  · rw [h0, m0, pyGet_interfaces_0, pyGet_modes_0]
    simp [expect_termination_of, m0]
  · rw [h0, m1, pyGet_interfaces_0, pyGet_modes_1]
    simp [expect_termination_of, m1]
  · rw [h1, m0, pyGet_interfaces_1, pyGet_modes_0]
    simp [expect_termination_of, m0]
  · rw [h1, m1, pyGet_interfaces_1, pyGet_modes_1]
    simp [expect_termination_of, m1]

/-- C3: for every valid channel, start bin and bin count,
`get_non_norm_buffer_data` reads `2 * bins` 16-bit integers and returns
exactly `bins` values, the i-th being `m * 2 ^ (e - 124)` with mantissa
`m = raw[2i]` and exponent `e = raw[2i+1]` (instrument responding with
interface and buffer-mode codes inside their documented ranges). -/
theorem C3_non_norm_decode (ins : Store) (raw : List ℤ)
    (channel start_bin bins : ℤ)
    (hch : channel = 1 ∨ channel = 2)
    (hsb : 0 ≤ start_bin ∧ start_bin ≤ 16382)
    (hbins : 1 ≤ bins ∧ bins ≤ 16383)
    (hoi : outxResp ins = 0 ∨ outxResp ins = 1)
    (hm : sendResp ins = 0 ∨ sendResp ins = 1)
    (hraw : raw.length = 2 * bins.toNat) :
    ∃ l, (get_non_norm_buffer_data ins raw channel start_bin bins).2
        = Except.ok l
      ∧ l.length = bins.toNat
      ∧ ∀ i : ℕ, i < bins.toNat →
          l.getD i 0 = ((raw.getD (2 * i) 0 : ℤ) : ℚ)
            * (2 : ℚ) ^ ((raw.getD (2 * i + 1) 0) - 124) := by
  refine ⟨nonNormDecode raw, ?_, ?_, ?_⟩
  · rw [get_non_norm_eval ins raw channel start_bin bins
      ⟨hch, hsb.1, hsb.2, hbins.1, hbins.2⟩ hoi hm]
  · rw [nonNormDecode_length, hraw]
    omega
  · intro i hi
    exact nonNormDecode_getD raw i (by omega)

/-- C3 witness: two bins decoded from the shorts 3, 124, -5, 120 give
3 * 2^0 = 3 and -5 * 2^(-4) = -5/16. -/
theorem C3_non_norm_decode_witness :
    ((1 : ℤ) = 1 ∨ (1 : ℤ) = 2)
    ∧ ([(3 : ℤ), 124, -5, 120].length = 2 * (2 : ℤ).toNat)
    ∧ ∃ l, (get_non_norm_buffer_data store0 [3, 124, -5, 120] 1 0 2).2
        = Except.ok l
      ∧ l.length = (2 : ℤ).toNat
      ∧ ∀ i : ℕ, i < (2 : ℤ).toNat →
          l.getD i 0 = (([(3 : ℤ), 124, -5, 120].getD (2 * i) 0 : ℤ) : ℚ)
            * (2 : ℚ) ^ (([(3 : ℤ), 124, -5, 120].getD (2 * i + 1) 0) - 124) :=
  ⟨Or.inl rfl, by decide,
    C3_non_norm_decode store0 [3, 124, -5, 120] 1 0 2 (Or.inl rfl)
      (by decide) (by decide) (Or.inl rfl) (Or.inl rfl) (by decide)⟩

/-- C9: with valid arguments and the interface query answering 0 or 1, if
the queried end-of-buffer mode is Loop (1) then both buffer retrievals
write `PAUS` before the trace query and `SEND 1` after it; if the mode is
1 Shot (0), neither `PAUS` nor any `SEND` command is sent. -/
theorem C9_pause_restore (ins : Store) (rawf : List ℚ) (rawh : List ℤ)
    (channel start_bin bins : ℤ)
    (hargs : (channel = 1 ∨ channel = 2) ∧ 0 ≤ start_bin ∧ start_bin ≤ 16382
      ∧ 1 ≤ bins ∧ bins ≤ 16383)
    (hoi : outxResp ins = 0 ∨ outxResp ins = 1) :
    (sendResp ins = 1 →
      (get_binary_buffer_data ins rawf channel start_bin bins).1
        = [Cmd.query Mnemonic.OUTX [], Cmd.query Mnemonic.SEND [],
           Cmd.write Mnemonic.PAUS [],
           Cmd.query Mnemonic.TRCB [(channel : ℚ), (start_bin : ℚ), (bins : ℚ)],
           Cmd.write Mnemonic.SEND [1]]
      ∧ (get_non_norm_buffer_data ins rawh channel start_bin bins).1
        = [Cmd.query Mnemonic.OUTX [], Cmd.query Mnemonic.SEND [],
           Cmd.write Mnemonic.PAUS [],
           Cmd.query Mnemonic.TRCL [(channel : ℚ), (start_bin : ℚ), (bins : ℚ)],
           Cmd.write Mnemonic.SEND [1]])
    ∧ (sendResp ins = 0 →
      (get_binary_buffer_data ins rawf channel start_bin bins).1
        = [Cmd.query Mnemonic.OUTX [], Cmd.query Mnemonic.SEND [],
           Cmd.query Mnemonic.TRCB [(channel : ℚ), (start_bin : ℚ), (bins : ℚ)]]
      ∧ (get_non_norm_buffer_data ins rawh channel start_bin bins).1
        = [Cmd.query Mnemonic.OUTX [], Cmd.query Mnemonic.SEND [],
           Cmd.query Mnemonic.TRCL [(channel : ℚ), (start_bin : ℚ), (bins : ℚ)]]) := by
  constructor
  · intro hm
    rw [get_binary_eval ins rawf channel start_bin bins hargs hoi (Or.inr hm),
      get_non_norm_eval ins rawh channel start_bin bins hargs hoi (Or.inr hm)]
    simp [hm]
  · intro hm
    rw [get_binary_eval ins rawf channel start_bin bins hargs hoi (Or.inl hm),
      get_non_norm_eval ins rawh channel start_bin bins hargs hoi (Or.inl hm)]
    simp [hm]

/-- C9 witness: concrete traces for a Loop-mode store (`SEND` register 1,
`OUTX` register 1) at channel 1, start bin 0, 1 bin. -/
theorem C9_pause_restore_witness :
    (get_binary_buffer_data (store0.put Mnemonic.SEND [1]) [0] 1 0 1).1
      = [Cmd.query Mnemonic.OUTX [], Cmd.query Mnemonic.SEND [],
         Cmd.write Mnemonic.PAUS [],
         Cmd.query Mnemonic.TRCB [(1 : ℚ), (0 : ℚ), (1 : ℚ)],
         Cmd.write Mnemonic.SEND [1]]
    ∧ (get_non_norm_buffer_data store0 [0, 0] 1 0 1).1
      = [Cmd.query Mnemonic.OUTX [], Cmd.query Mnemonic.SEND [],
         Cmd.query Mnemonic.TRCL [(1 : ℚ), (0 : ℚ), (1 : ℚ)]] := by
  have h1 := C9_pause_restore (store0.put Mnemonic.SEND [1]) [0] [0, 0] 1 0 1
    (by refine ⟨Or.inl rfl, ?_, ?_, ?_, ?_⟩ <;> decide)
    (Or.inl (by decide))
  have h2 := C9_pause_restore store0 [0] [0, 0] 1 0 1
    (by refine ⟨Or.inl rfl, ?_, ?_, ?_, ?_⟩ <;> decide)
    (Or.inl (by decide))
  exact ⟨(h1.1 (by decide)).1, (h2.2 (by decide)).2⟩

/-- C10: under the precondition that the output-interface query returns 0
(RS232) or 1 (GPIB), `expect_termination` is always assigned - `false` for
RS232, `true` for GPIB - and neither buffer retrieval can fail with the
unbound-local error that the unassigned branch would produce. -/
theorem C10_expect_termination_defined (ins : Store) (rawf : List ℚ)
    (rawh : List ℤ) (channel start_bin bins : ℤ)
    (hoi : outxResp ins = 0 ∨ outxResp ins = 1) :
    (outxResp ins = 0 →
      pyGet output_interfaces (outxResp ins) = Except.ok ("RS232")
      ∧ expect_termination_of ("RS232") = Option.some false)
    ∧ (outxResp ins = 1 →
      pyGet output_interfaces (outxResp ins) = Except.ok ("GPIB")
      ∧ expect_termination_of ("GPIB") = Option.some true)
    ∧ (get_binary_buffer_data ins rawf channel start_bin bins).2
        ≠ Except.error PyErr.unboundLocal
    ∧ (get_non_norm_buffer_data ins rawh channel start_bin bins).2
        ≠ Except.error PyErr.unboundLocal := by
  refine ⟨fun h => by rw [h]; exact ⟨pyGet_interfaces_0, by decide⟩,
    fun h => by rw [h]; exact ⟨pyGet_interfaces_1, by decide⟩, ?_, ?_⟩
  · unfold get_binary_buffer_data
    split_ifs with hargs
    · rcases hoi with h | h <;> rw [h]
      · rw [pyGet_interfaces_0]
        rcases pyGet_ok_or_index end_of_buffer_modes (sendResp ins) with ⟨s, hs⟩ | hs
          <;> rw [hs] <;> simp [expect_termination_of]
      · rw [pyGet_interfaces_1]
        rcases pyGet_ok_or_index end_of_buffer_modes (sendResp ins) with ⟨s, hs⟩ | hs
          <;> rw [hs] <;> simp [expect_termination_of]
    · simp
  · unfold get_non_norm_buffer_data
    split_ifs with hargs
    · rcases hoi with h | h <;> rw [h]
      · rw [pyGet_interfaces_0]
        rcases pyGet_ok_or_index end_of_buffer_modes (sendResp ins) with ⟨s, hs⟩ | hs
          <;> rw [hs] <;> simp [expect_termination_of]
      · rw [pyGet_interfaces_1]
        rcases pyGet_ok_or_index end_of_buffer_modes (sendResp ins) with ⟨s, hs⟩ | hs
          <;> rw [hs] <;> simp [expect_termination_of]
    · simp

/-- C10 witness: the implication instantiated at an all-zero store (RS232
interface) with channel 1, start bin 0, 1 bin. -/
theorem C10_expect_termination_defined_witness :
    (outxResp store0 = 0 →
      pyGet output_interfaces (outxResp store0) = Except.ok ("RS232")
      ∧ expect_termination_of ("RS232") = Option.some false)
    ∧ (outxResp store0 = 1 →
      pyGet output_interfaces (outxResp store0) = Except.ok ("GPIB")
      ∧ expect_termination_of ("GPIB") = Option.some true)
    ∧ (get_binary_buffer_data store0 [0] 1 0 1).2
        ≠ Except.error PyErr.unboundLocal
    ∧ (get_non_norm_buffer_data store0 [0, 0] 1 0 1).2
        ≠ Except.error PyErr.unboundLocal :=
  C10_expect_termination_defined store0 [0] [0, 0] 1 0 1 (Or.inl (by decide))

/-- C5 counterexample: `start` does not send exactly one command - it sends
two (the `FAST?` data-transfer-mode query, then `STRT` or `STRD`). -/
theorem C5_counterexample : ¬ ((start store0).1.length = 1) := by decide

/-- C5 amended: the simple accessors send exactly one command per valid
invocation, but `start` always sends two (the `FAST?` query then the start
command), and the two binary buffer retrievals send three commands in
1-Shot mode and five in Loop mode (interface query, buffer-mode query,
optional `PAUS`, trace query, optional `SEND 1`). -/
theorem C5_command_counts :
    (∀ p : ℚ, -360 ≤ p → p ≤ 720 → (reference_phase_shift_set p).1.length = 1)
    ∧ (∀ ins : Store, (reference_phase_shift_get ins).1.length = 1)
    ∧ (∀ v : ℤ, 0 ≤ v → v < 27 → (sensitivity_set v).1.length = 1)
    ∧ (∀ ins : Store, (sensitivity_get ins).1.length = 1)
    ∧ (∀ v : ℤ, 0 ≤ v → v < 20 → (time_constant_set v).1.length = 1)
    ∧ (∀ ins : Store, (time_constant_get ins).1.length = 1)
    ∧ (∀ p : ℤ, 0 ≤ p → p < 3 → (auto_offset p).1.length = 1)
    ∧ (∀ n : ℤ, 1 ≤ n → n < 10 → (save_setup n).1.length = 1)
    ∧ (∀ (p : ℤ) (off : ℚ) (ex : ℤ),
        (p = 1 ∨ p = 2 ∨ p = 3) → -105 ≤ off → off ≤ 105 → 0 ≤ ex → ex < 3 →
        (set_output_offset_expand p off ex).1.length = 1)
    ∧ (∀ (ins : Store) (p : ℤ), 1 ≤ p → p < 5 →
        (sr830_measure ins p).1.length = 1)
    ∧ pause.1.length = 1
    ∧ (∀ ins : Store, (start ins).1.length = 2)
    ∧ (∀ (ins : Store) (rawf : List ℚ) (rawh : List ℤ)
        (channel start_bin bins : ℤ),
        (channel = 1 ∨ channel = 2) → 0 ≤ start_bin → start_bin ≤ 16382 →
        1 ≤ bins → bins ≤ 16383 →
        (outxResp ins = 0 ∨ outxResp ins = 1) →
        ((sendResp ins = 0 →
          (get_binary_buffer_data ins rawf channel start_bin bins).1.length = 3
          ∧ (get_non_norm_buffer_data ins rawh channel start_bin bins).1.length = 3)
        ∧ (sendResp ins = 1 →
          (get_binary_buffer_data ins rawf channel start_bin bins).1.length = 5
          ∧ (get_non_norm_buffer_data ins rawh channel start_bin bins).1.length = 5))) := by
  refine ⟨?_, fun _ => rfl, ?_, fun _ => rfl, ?_, fun _ => rfl, ?_, ?_, ?_, ?_,
    rfl, ?_, ?_⟩
  · intro p h1 h2
    unfold reference_phase_shift_set
    rw [if_pos (And.intro h1 h2)]
    rfl
  · intro v h1 h2
    unfold sensitivity_set
    rw [if_pos (And.intro h1 h2)]
    rfl
  · intro v h1 h2
    unfold time_constant_set
    rw [if_pos (And.intro h1 h2)]
    rfl
  · intro p h1 h2
    unfold auto_offset
    rw [if_pos (And.intro h1 h2)]
    rfl
  · intro n h1 h2
    unfold save_setup
    rw [if_pos (And.intro h1 h2)]
    rfl
  · intro p off ex hp h1 h2 h3 h4
    unfold set_output_offset_expand
    rw [if_pos (And.intro hp (And.intro h1 (And.intro h2 (And.intro h3 h4))))]
    rfl
  · intro ins p h1 h2
    unfold sr830_measure
    rw [if_pos (And.intro h1 h2)]
    rfl
  · intro ins
    unfold start
    split <;> rfl
  · intro ins rawf rawh channel start_bin bins hch h1 h2 h3 h4 hoi
    constructor
    · intro hm
      rw [get_binary_eval ins rawf channel start_bin bins
          ⟨hch, h1, h2, h3, h4⟩ hoi (Or.inl hm),
        get_non_norm_eval ins rawh channel start_bin bins
          ⟨hch, h1, h2, h3, h4⟩ hoi (Or.inl hm)]
      simp [hm]
    · intro hm
      rw [get_binary_eval ins rawf channel start_bin bins
          ⟨hch, h1, h2, h3, h4⟩ hoi (Or.inr hm),
        get_non_norm_eval ins rawh channel start_bin bins
          ⟨hch, h1, h2, h3, h4⟩ hoi (Or.inr hm)]
      simp [hm]

/-- C5 witness: concrete command counts - one for a setter, two for
`start`, three for a 1-Shot-mode buffer read. -/
theorem C5_command_counts_witness :
    (reference_phase_shift_set 10).1.length = 1
    ∧ (sensitivity_set 5).1.length = 1
    ∧ (start store0).1.length = 2
    ∧ (get_binary_buffer_data store0 [0] 1 0 1).1.length = 3 := by
  refine ⟨C5_command_counts.1 10 (by decide) (by decide),
    C5_command_counts.2.2.1 5 (by decide) (by decide),
    C5_command_counts.2.2.2.2.2.2.2.2.2.2.2.1 store0, ?_⟩
  exact ((C5_command_counts.2.2.2.2.2.2.2.2.2.2.2.2 store0 [0] [0] 1 0 1
    (Or.inl rfl) (by decide) (by decide) (by decide) (by decide)
    (Or.inl (by decide))).1 (by decide)).1

/-- C7: every modelled validating operation sends no command at all when it
raises ValueError - the validation precedes every write and query, so the
instrument sees nothing on a rejected call. -/
theorem C7_no_write_on_valueerror :
    (∀ p : ℚ, (reference_phase_shift_set p).2 = Except.error PyErr.valueError →
      (reference_phase_shift_set p).1 = [])
    ∧ (∀ v : ℤ, (reference_source_set v).2 = Except.error PyErr.valueError →
      (reference_source_set v).1 = [])
    ∧ (∀ f : ℚ, (reference_frequency_set f).2 = Except.error PyErr.valueError →
      (reference_frequency_set f).1 = [])
    ∧ (∀ v : ℤ, (harmonic_set v).2 = Except.error PyErr.valueError →
      (harmonic_set v).1 = [])
    ∧ (∀ v : ℤ, (sensitivity_set v).2 = Except.error PyErr.valueError →
      (sensitivity_set v).1 = [])
    ∧ (∀ v : ℤ, (time_constant_set v).2 = Except.error PyErr.valueError →
      (time_constant_set v).1 = [])
    ∧ (∀ v : ℤ, (sample_rate_set v).2 = Except.error PyErr.valueError →
      (sample_rate_set v).1 = [])
    ∧ (∀ v : ℤ, (local_mode_set v).2 = Except.error PyErr.valueError →
      (local_mode_set v).1 = [])
    ∧ (∀ p : ℤ, (auto_offset p).2 = Except.error PyErr.valueError →
      (auto_offset p).1 = [])
    ∧ (∀ ch : ℤ, (get_display ch).2 = Except.error PyErr.valueError →
      (get_display ch).1 = [])
    ∧ (∀ (p : ℤ) (off : ℚ) (ex : ℤ),
      (set_output_offset_expand p off ex).2 = Except.error PyErr.valueError →
      (set_output_offset_expand p off ex).1 = [])
    ∧ (∀ (ins : Store) (p : ℤ),
      (get_output_offset_expand ins p).2 = Except.error PyErr.valueError →
      (get_output_offset_expand ins p).1 = [])
    ∧ (∀ n : ℤ, (save_setup n).2 = Except.error PyErr.valueError →
      (save_setup n).1 = [])
    ∧ (∀ n : ℤ, (recall_setup n).2 = Except.error PyErr.valueError →
      (recall_setup n).1 = [])
    ∧ (∀ ch out : ℤ, (set_front_output ch out).2 = Except.error PyErr.valueError →
      (set_front_output ch out).1 = [])
    ∧ (∀ (ins : Store) (ch : ℤ),
      (read_display ins ch).2 = Except.error PyErr.valueError →
      (read_display ins ch).1 = [])
    ∧ (∀ (ins : Store) (p : ℤ),
      (sr830_measure ins p).2 = Except.error PyErr.valueError →
      (sr830_measure ins p).1 = [])
    ∧ (∀ c : ℤ, (gpib_override_remote_set c).2 = Except.error PyErr.valueError →
      (gpib_override_remote_set c).1 = [])
    ∧ (∀ (ins : Store) (rawf : List ℚ) (channel start_bin bins : ℤ),
      (get_binary_buffer_data ins rawf channel start_bin bins).2
        = Except.error PyErr.valueError →
      (get_binary_buffer_data ins rawf channel start_bin bins).1 = [])
    ∧ (∀ (ins : Store) (rawh : List ℤ) (channel start_bin bins : ℤ),
      (get_non_norm_buffer_data ins rawh channel start_bin bins).2
        = Except.error PyErr.valueError →
      (get_non_norm_buffer_data ins rawh channel start_bin bins).1 = []) := by
  refine ⟨?_, ?_, ?_, ?_, ?_, ?_, ?_, ?_, ?_, ?_, ?_, ?_, ?_, ?_, ?_, ?_, ?_,
    ?_, ?_, ?_⟩
  · intro x h
    unfold reference_phase_shift_set at h ⊢
    split_ifs at h ⊢ <;> simp_all
  · intro x h
    unfold reference_source_set at h ⊢
    split_ifs at h ⊢ <;> simp_all
  · intro x h
    unfold reference_frequency_set at h ⊢
    split_ifs at h ⊢ <;> simp_all
  · intro x h
    unfold harmonic_set at h ⊢
    split_ifs at h ⊢ <;> simp_all
  · intro x h
    unfold sensitivity_set at h ⊢
    split_ifs at h ⊢ <;> simp_all
  · intro x h
    unfold time_constant_set at h ⊢
    split_ifs at h ⊢ <;> simp_all
  · intro x h
    unfold sample_rate_set at h ⊢
    split_ifs at h ⊢ <;> simp_all
  · intro x h
    unfold local_mode_set at h ⊢
    split_ifs at h ⊢ <;> simp_all
  · intro x h
    unfold auto_offset at h ⊢
    split_ifs at h ⊢ <;> simp_all
  · intro x h
    unfold get_display at h ⊢
    split_ifs at h ⊢ <;> simp_all
  · intro p off ex h
    unfold set_output_offset_expand at h ⊢
    split_ifs at h ⊢ <;> simp_all
  · intro ins p h
    unfold get_output_offset_expand at h ⊢
    split_ifs at h ⊢ <;> simp_all
  · intro x h
    unfold save_setup at h ⊢
    split_ifs at h ⊢ <;> simp_all
  · intro x h
    unfold recall_setup at h ⊢
    split_ifs at h ⊢ <;> simp_all
  · intro ch out h
    unfold set_front_output at h ⊢
    split_ifs at h ⊢ <;> simp_all
  · intro ins ch h
    unfold read_display at h ⊢
    split_ifs at h ⊢ <;> simp_all
  · intro ins p h
    unfold sr830_measure at h ⊢
    split_ifs at h ⊢ <;> simp_all
  · intro c h
    unfold gpib_override_remote_set at h ⊢
    split_ifs at h ⊢ <;> simp_all
  · intro ins rawf channel start_bin bins h
    unfold get_binary_buffer_data at h ⊢
    split_ifs at h ⊢ with hc
    · exfalso
      rcases pyGet_ok_or_index output_interfaces (outxResp ins) with ⟨s, hs⟩ | hs
        <;> rw [hs] at h
      · rcases pyGet_ok_or_index end_of_buffer_modes (sendResp ins) with
          ⟨s2, hs2⟩ | hs2 <;> rw [hs2] at h
        · rcases he : expect_termination_of s with _ | b <;> simp [he] at h
        · simp at h
      · simp at h
    · rfl
  · intro ins rawh channel start_bin bins h
    unfold get_non_norm_buffer_data at h ⊢
    split_ifs at h ⊢ with hc
    · exfalso
      rcases pyGet_ok_or_index output_interfaces (outxResp ins) with ⟨s, hs⟩ | hs
        <;> rw [hs] at h
      · rcases pyGet_ok_or_index end_of_buffer_modes (sendResp ins) with
          ⟨s2, hs2⟩ | hs2 <;> rw [hs2] at h
        · rcases he : expect_termination_of s with _ | b <;> simp [he] at h
        · simp at h
      · simp at h
    · rfl

/-- C7 witness: rejected calls at concrete out-of-domain arguments send no
command. -/
theorem C7_no_write_on_valueerror_witness :
    (reference_phase_shift_set 10000).1 = []
    ∧ (sensitivity_set 27).1 = []
    ∧ (set_output_offset_expand 0 0 0).1 = []
    ∧ (get_binary_buffer_data store0 [0] 3 0 1).1 = [] := by
  refine ⟨C7_no_write_on_valueerror.1 10000 rfl,
    C7_no_write_on_valueerror.2.2.2.2.1 27 rfl,
    C7_no_write_on_valueerror.2.2.2.2.2.2.2.2.2.2.1 0 0 0 rfl, ?_⟩
  exact C7_no_write_on_valueerror.2.2.2.2.2.2.2.2.2.2.2.2.2.2.2.2.2.2.1
    store0 [0] 3 0 1 rfl

/-- C6: the claim says `errors` returns one description per set error bit
and the empty list when no bit is set.  The code instead indexes the
unpadded, most-significant-bit-first string `format(sp, "b")` at fixed
positions: with every register zero it evaluates `"0"[4]` and raises
IndexError where the claim requires `[]`, and with only the MAV bit set
(serial-poll byte 16, string `"10000"`) it misreads position 4 as 0 and
then raises IndexError at position 5, where the claim requires the MAV
description. -/
theorem C6_errors_crash_on_clean_status :
    errorsImpl 0 0 0 0 = Except.error PyErr.indexError
    ∧ errorsSpec 0 0 0 0 = []
    ∧ errorsImpl 16 0 0 0 = Except.error PyErr.indexError
    ∧ errorsSpec 16 0 0 0 = [serial_poll_status_byte_desc.getD 4 ("")] := by
  refine ⟨rfl, rfl, rfl, rfl⟩

/-- C8: no public operation other than `__init__`, `connect` and
`disconnect` modifies any Python-side attribute of the wrapper object -
every modelled operation leaves `_resource_name`, `_resource_manager`,
`_resource_kwargs` and `instr` exactly as they were, for every wrapper
state, instrument store and argument. -/
theorem C8_wrapper_state_unchanged (w : WrapperState) (ins : Store)
    (op : PubOp) : (runPub w ins op).1 = w := by
  cases op <;> rfl

/-- C4: the claim says every public getter parses a queried response; the
`gpib_override_remote` getter instead performs a bare `write` of the query
string and returns `int` of the byte count `write` returns (7 here stands
for any byte count, unrelated to the OVRM register), and `get_display`
calls `.split(",")` on the integer `write` returns, raising
AttributeError after having sent its command. -/
theorem C4_get_uses_bare_write :
    (gpib_override_remote_get 7).1 = [Cmd.write Mnemonic.OVRMq []]
    ∧ (gpib_override_remote_get 7).2 = Except.ok 7
    ∧ (get_display 1).1 = [Cmd.write Mnemonic.DDEFq [1]]
    ∧ (get_display 1).2 = Except.error PyErr.attributeError :=
  ⟨rfl, rfl, rfl, rfl⟩
